import Mathlib

/-!
Verification development for the BigDataStructure cost simulator
(`td4/td4.py`): schema-driven document-size estimation, the resource cost
model (`calculate_costs`, `CostResult.add`) and the three physical operator
simulators (`simulate_filter`, `simulate_join`, `simulate_aggregate`).

Python numbers are modelled as rationals (`ℚ`); document/row counts that are
Python `int`s are modelled as `ℤ`.  Python `ZeroDivisionError` (the only
failure the relevant code can raise, besides a missing-collection `KeyError`)
is modelled by returning `Option`: a function returns `none` exactly where the
Python code would raise.  Python `int(x)` is truncation toward zero
(`pyTrunc`).  Python truthiness of an optional string (`if sharding_key:`) is
`optStrTruthy`: `None` and the empty string are falsy.
-/

-- ============================================================
-- Constants (td4.py lines 9-23)
-- ============================================================

def TYPE_SIZES : String → Option ℚ := fun t =>
  if t = "string" then some 80
  else if t = "number" then some 8
  else if t = "integer" then some 8
  else if t = "date" then some 20
  else if t = "longstring" then some 200
  else none

def KEY_OVERHEAD : ℚ := 12

def NB_SERVERS_DEFAULT : ℚ := 1000

def IO_SPEED_BYTES_S : ℚ := 100 * 1024 * 1024

def NETWORK_SPEED_BYTES_S : ℚ := 10 * 1024 * 1024

def CARBON_INTENSITY_G_KWH : ℚ := 50

def POWER_CONSUMPTION_W : ℚ := 200

def KWH_PRICE : ℚ := 15 / 100

-- ============================================================
-- Python-semantics helpers
-- ============================================================

/-- Python `int(x)` on a finite number: truncation toward zero. -/
def pyTrunc (q : ℚ) : ℤ := if 0 ≤ q then ⌊q⌋ else ⌈q⌉

/-- Python truthiness of an optional string (`if sharding_key:`):
`None` and `""` are falsy. -/
def optStrTruthy : Option String → Bool
  | none => false
  | some s => s != ""

/-- Python `sharding_key or "None"`. -/
def pyOrNone : Option String → String
  | none => "None"
  | some s => if s = "" then "None" else s

/-- Python f-string rendering of an optional string: `None` prints as "None". -/
def optStr : Option String → String
  | none => "None"
  | some s => s

-- ============================================================
-- Schema model (the JSON-schema subset td4.py reads: the keys
-- "type", "properties", "items"; each is optional)
-- ============================================================

mutual
inductive SchemaNode where
  | node (ty : Option String) (props : Fields) (items : Option SchemaNode)

inductive Fields where
  | nil
  | cons (key : String) (info : SchemaNode) (rest : Fields)
end

/-- `schema_node.get("type", "object")`. -/
def schemaType : SchemaNode → String
  | .node ty _ _ => ty.getD "object"

-- ============================================================
-- Collection._compute_doc_size (td4.py lines 38-57)
-- ============================================================

mutual
/-- `Collection._compute_doc_size(schema_node)`: sum of the per-field sizes
over the node's `properties` (absent `properties` is the empty field list). -/
def compute_doc_size (stats : String → Option ℚ) : SchemaNode → ℚ
  | .node _ props _ => fieldsSize stats props

/-- The `for key, info in properties.items()` accumulation loop of
`_compute_doc_size`.  A field whose type is neither in `TYPE_SIZES` nor
"object" nor "array" falls through every branch and contributes 0. -/
def fieldsSize (stats : String → Option ℚ) : Fields → ℚ
  | .nil => 0
  | .cons key info rest =>
      (match TYPE_SIZES (schemaType info) with
       | some sz => KEY_OVERHEAD + sz
       | none =>
          if schemaType info = "object" then
            KEY_OVERHEAD + compute_doc_size stats info
          else if schemaType info = "array" then
            KEY_OVERHEAD + ((stats key).getD 1) * itemUnitSize stats info
          else 0) + fieldsSize stats rest

/-- The `item_size` expression of the "array" branch: `info.get("items", {})`
then `_compute_doc_size(items)` if the item type is "object" (an absent
`items` is the empty dict, whose type defaults to "object" and whose computed
size is 0), else `KEY_OVERHEAD + TYPE_SIZES.get(item_type, 80)`. -/
def itemUnitSize (stats : String → Option ℚ) : SchemaNode → ℚ
  | .node _ _ itemsOpt =>
      match itemsOpt with
      | some its =>
          if schemaType its = "object" then compute_doc_size stats its
          else KEY_OVERHEAD + (TYPE_SIZES (schemaType its)).getD 80
      | none => 0
end

-- ============================================================
-- Collection / Database (td4.py lines 29-68)
-- ============================================================

structure Collection where
  name : String
  schema : SchemaNode
  count : ℤ
  stats : String → Option ℚ
  doc_size : ℚ

/-- `Collection.__init__`: `doc_size` is computed from the schema and the
per-field cardinality stats at construction time. -/
def Collection.make (name : String) (schema : SchemaNode) (count : ℤ)
    (stats : String → Option ℚ) : Collection :=
  { name := name, schema := schema, count := count, stats := stats
  , doc_size := compute_doc_size stats schema }

/-- `Collection.total_size_bytes` property: `count * doc_size`. -/
def Collection.total_size_bytes (c : Collection) : ℚ := (c.count : ℚ) * c.doc_size

structure Database where
  name : String
  collections : String → Option Collection
  nb_servers : ℚ

-- ============================================================
-- CostResult / calculate_costs (td4.py lines 74-147)
-- ============================================================

structure CostResult where
  time_s : ℚ
  carbon_g : ℚ
  price_eur : ℚ
  time_read_s : ℚ
  time_transfer_s : ℚ
  energy_kwh : ℚ
  nodes_involved : ℚ
  data_read_bytes : ℚ
  data_transfer_bytes : ℚ
deriving DecidableEq

/-- `CostResult.add`: component-wise sum, except `nodes_involved`, which
combines by `max`. -/
def CostResult.add (a b : CostResult) : CostResult :=
  { time_s := a.time_s + b.time_s
  , carbon_g := a.carbon_g + b.carbon_g
  , price_eur := a.price_eur + b.price_eur
  , time_read_s := a.time_read_s + b.time_read_s
  , time_transfer_s := a.time_transfer_s + b.time_transfer_s
  , energy_kwh := a.energy_kwh + b.energy_kwh
  , nodes_involved := max a.nodes_involved b.nodes_involved
  , data_read_bytes := a.data_read_bytes + b.data_read_bytes
  , data_transfer_bytes := a.data_transfer_bytes + b.data_transfer_bytes }

/-- The all-zero cost vector with `nodes_involved = 0`. -/
def costZero : CostResult := ⟨0, 0, 0, 0, 0, 0, 0, 0, 0⟩

/-- `total_time = (time_read + time_transfer) / nodes_involved`. -/
def totalTime (dr dt n : ℚ) : ℚ :=
  (dr / IO_SPEED_BYTES_S + dt / NETWORK_SPEED_BYTES_S) / n

/-- `energy_kwh = (POWER_CONSUMPTION_W * (total_time / 3600.0)) * nodes_involved / 1000.0`. -/
def energyKwh (dr dt n : ℚ) : ℚ :=
  POWER_CONSUMPTION_W * (totalTime dr dt n / 3600) * n / 1000

/-- `calculate_costs(data_read_bytes, data_transfer_bytes, nodes_involved)`.
The Python code divides by `nodes_involved` with no validity check, so the
only failure is `ZeroDivisionError` at `nodes_involved == 0`, modelled as
`none`. -/
def calculate_costs (data_read_bytes data_transfer_bytes nodes_involved : ℚ) :
    Option CostResult :=
  if nodes_involved = 0 then none
  else
    some { time_s := totalTime data_read_bytes data_transfer_bytes nodes_involved
         , carbon_g := energyKwh data_read_bytes data_transfer_bytes nodes_involved *
             CARBON_INTENSITY_G_KWH
         , price_eur := energyKwh data_read_bytes data_transfer_bytes nodes_involved *
             KWH_PRICE
         , time_read_s := data_read_bytes / IO_SPEED_BYTES_S
         , time_transfer_s := data_transfer_bytes / NETWORK_SPEED_BYTES_S
         , energy_kwh := energyKwh data_read_bytes data_transfer_bytes nodes_involved
         , nodes_involved := nodes_involved
         , data_read_bytes := data_read_bytes
         , data_transfer_bytes := data_transfer_bytes }

-- ============================================================
-- Operators (td4.py lines 153-312)
-- ============================================================

structure OpResult where
  database : String
  shardingKeys : String
  index : String
  algo : String
  outputDocs : ℤ
  outputSize : ℚ
  costs : CostResult
deriving DecidableEq

/-- The `sharding_info` dict of `simulate_join`: `.get("outer")` /
`.get("inner")` may each be absent (`None`). -/
structure ShardingInfo where
  outer : Option String
  inner : Option String
deriving DecidableEq

/-- Source selection at the top of `simulate_filter` (lines 156-164):
`(count, doc_size, total_size)` taken from `input_data` when one is given
(a returned operator dict is never empty, hence truthy), else from the
catalog collection (`KeyError` on a missing collection is `none`). -/
def filterSourceStats (db : Database) (coll_name : String)
    (input_data : Option OpResult) : Option (ℤ × ℚ × ℚ) :=
  match input_data with
  | some d =>
      some (d.outputDocs,
            if 0 < d.outputDocs then d.outputSize / (d.outputDocs : ℚ) else 0,
            d.outputSize)
  | none =>
      (db.collections coll_name).map fun c => (c.count, c.doc_size, c.total_size_bytes)

/-- `simulate_filter` (td4.py lines 153-194). -/
def simulate_filter (db : Database) (coll_name filter_key : String)
    (selectivity : ℚ) (sharding_key : Option String) (has_index : Bool)
    (input_data : Option OpResult) : Option OpResult :=
  (filterSourceStats db coll_name input_data).bind fun src =>
    let count : ℤ := src.1
    let doc_size : ℚ := src.2.1
    let total_size : ℚ := src.2.2
    let output_count : ℚ := (count : ℚ) * selectivity
    let output_size : ℚ := output_count * doc_size
    let algo : String :=
      (if optStrTruthy sharding_key then "Shard / " else "") ++
      (if has_index then "Index" else "Full scan")
    let costsOpt : Option CostResult :=
      if optStrTruthy sharding_key ∧ sharding_key = some filter_key then
        -- `total_size / db.nb_servers` raises ZeroDivisionError at 0 servers
        if db.nb_servers = 0 then none
        else calculate_costs
          ((total_size / db.nb_servers) * (if has_index then 1 / 100 else 1)) 0 1
      else
        calculate_costs (total_size * (if has_index then 1 / 100 else 1))
          (if optStrTruthy sharding_key then output_size else 0) db.nb_servers
    costsOpt.map fun costs =>
      { database := db.name
      , shardingKeys := pyOrNone sharding_key
      , index := if has_index then filter_key else "None"
      , algo := algo
      , outputDocs := pyTrunc output_count
      , outputSize := output_size
      , costs := costs }

/-- Source selection at the top of `simulate_aggregate` (lines 205-211):
`(count, total_size)`. -/
def aggSourceStats (db : Database) (coll_name : String)
    (input_data : Option OpResult) : Option (ℤ × ℚ) :=
  match input_data with
  | some d => some (d.outputDocs, d.outputSize)
  | none => (db.collections coll_name).map fun c => (c.count, c.total_size_bytes)

/-- `output_count = distinct_values if distinct_values else (count * 0.1)`:
Python truthiness, so an absent *or zero* `distinct_values` selects the
10%-of-input fallback. -/
def aggOutputCount (distinct_values : Option ℚ) (count : ℤ) : ℚ :=
  match distinct_values with
  | some dv => if dv ≠ 0 then dv else (count : ℚ) * (1 / 10)
  | none => (count : ℚ) * (1 / 10)

/-- `simulate_aggregate` (td4.py lines 197-244). -/
def simulate_aggregate (db : Database) (coll_name group_keys : String)
    (sharding_key : Option String) (input_data : Option OpResult)
    (distinct_values : Option ℚ) : Option OpResult :=
  (aggSourceStats db coll_name input_data).bind fun src =>
    let count : ℤ := src.1
    let total_size : ℚ := src.2
    let output_count : ℚ := aggOutputCount distinct_values count
    let output_size : ℚ := output_count * 100
    -- (algo, nodes_involved, data_read, data_transfer)
    let choice : String × ℚ × ℚ × ℚ :=
      match sharding_key with
      | some sk =>
          if sk ≠ "" then
            if group_keys = sk then
              ("Shard / Local Aggregate", db.nb_servers, total_size, 0)
            else
              ("Map/Reduce Aggregate (Shuffle)", db.nb_servers, total_size,
               total_size * (1 / 2))
          else ("Local Aggregate", 1, total_size, 0)
      | none => ("Local Aggregate", 1, total_size, 0)
    (calculate_costs choice.2.2.1 choice.2.2.2 choice.2.1).map fun costs =>
      { database := db.name
      , shardingKeys := pyOrNone sharding_key
      , index := "None"
      , algo := choice.1
      , outputDocs := pyTrunc output_count
      , outputSize := output_size
      , costs := costs }

/-- Source selection of `simulate_join` for one side (lines 256-274):
`(count, total_size, doc_size)`. -/
def joinSourceStats (db : Database) (coll_name : String)
    (input : Option OpResult) : Option (ℤ × ℚ × ℚ) :=
  match input with
  | some d =>
      some (d.outputDocs, d.outputSize,
            if 0 < d.outputDocs then d.outputSize / (d.outputDocs : ℚ) else 0)
  | none =>
      (db.collections coll_name).map fun c => (c.count, c.total_size_bytes, c.doc_size)

/-- `simulate_join` (td4.py lines 247-312). -/
def simulate_join (db : Database) (coll_outer coll_inner join_key : String)
    (sharding_info : Option ShardingInfo)
    (outer_input inner_input : Option OpResult) : Option OpResult :=
  (joinSourceStats db coll_outer outer_input).bind fun os =>
    (joinSourceStats db coll_inner inner_input).bind fun inr =>
      let c_outer_count : ℤ := os.1
      let c_outer_size : ℚ := os.2.1
      let c_outer_doc_size : ℚ := os.2.2
      let c_inner_size : ℚ := inr.2.1
      let c_inner_doc_size : ℚ := inr.2.2
      let output_count : ℤ := c_outer_count
      let output_size : ℚ := (output_count : ℚ) * (c_outer_doc_size + c_inner_doc_size)
      -- (sh_keys, algo, nodes_involved, data_read, data_transfer)
      let choice : String × String × ℚ × ℚ × ℚ :=
        match sharding_info with
        | some si =>
            if si.outer = some join_key ∧ si.inner = some join_key then
              (optStr si.outer ++ ", " ++ optStr si.inner,
               "Shard / Nested Loop", db.nb_servers,
               c_outer_size + c_inner_size, 0)
            else
              (optStr si.outer ++ ", " ++ optStr si.inner,
               "Map/Reduce & Nested Loop", db.nb_servers,
               c_outer_size + c_inner_size, min c_outer_size c_inner_size)
        | none => ("None", "Nested Loop", 1, c_outer_size + c_inner_size, 0)
      (calculate_costs choice.2.2.2.1 choice.2.2.2.2 choice.2.2.1).map fun costs =>
        { database := db.name
        , shardingKeys := choice.1
        , index := "None"
        , algo := choice.2.1
        , outputDocs := output_count
        , outputSize := output_size
        , costs := costs }

-- ============================================================
-- Shared helper lemmas
-- ============================================================

lemma calculate_costs_fields (dr dt n : ℚ) (h : n ≠ 0) :
    ∃ cst, calculate_costs dr dt n = some cst ∧
      cst.nodes_involved = n ∧ cst.data_read_bytes = dr ∧
      cst.data_transfer_bytes = dt ∧
      cst.time_s = (dr / IO_SPEED_BYTES_S + dt / NETWORK_SPEED_BYTES_S) / n := by
  unfold calculate_costs
  rw [if_neg h]
  exact ⟨_, rfl, rfl, rfl, rfl, rfl⟩

-- ============================================================
-- C3: the CostResult add monoid
-- ============================================================

/-- A cost vector with negative `nodes_involved` (constructible, since
`CostResult.__init__` validates nothing). -/
def costNeg : CostResult := ⟨0, 0, 0, 0, 0, 0, -1, 0, 0⟩

/-- C3 counterexample: the all-zero vector with `nodes_involved = 0` is not an
identity element for `add` on all cost vectors: adding it to a vector with
`nodes_involved = -1` yields `nodes_involved = max 0 (-1) = 0 ≠ -1`. -/
theorem costZero_add_not_identity : costZero.add costNeg ≠ costNeg := by
  intro h
  have hn := congrArg CostResult.nodes_involved h
  simp only [CostResult.add, costZero, costNeg] at hn
  norm_num at hn

/-- C3 (amended): `CostResult.add` is associative and commutative
(component-wise rational addition, `max` on `nodes_involved`), and the
all-zero vector with `nodes_involved = 0` is a two-sided identity for every
cost vector whose `nodes_involved` is nonnegative (`max 0 x = x` needs
`0 ≤ x`; it fails on vectors with negative `nodes_involved`). -/
theorem costResult_add_monoid (a b c : CostResult) :
    (a.add b).add c = a.add (b.add c) ∧ a.add b = b.add a ∧
    (0 ≤ a.nodes_involved → costZero.add a = a ∧ a.add costZero = a) := by
  obtain ⟨t1, c1, p1, r1, f1, e1, n1, d1, x1⟩ := a
  obtain ⟨t2, c2, p2, r2, f2, e2, n2, d2, x2⟩ := b
  obtain ⟨t3, c3, p3, r3, f3, e3, n3, d3, x3⟩ := c
  refine ⟨?_, ?_, fun h => ⟨?_, ?_⟩⟩ <;>
    simp only [CostResult.add, costZero, CostResult.mk.injEq] <;>
    refine ⟨by ring, by ring, by ring, by ring, by ring, by ring, ?_, by ring, by ring⟩
  · exact max_assoc n1 n2 n3
  · exact max_comm n1 n2
  · exact max_eq_right h
  · exact max_eq_left h

def costA : CostResult := ⟨1, 2, 3, 4, 5, 6, 7, 8, 9⟩

def costB : CostResult := ⟨9, 8, 7, 6, 5, 4, 3, 2, 1⟩

def costC : CostResult := ⟨2, 2, 2, 2, 2, 2, 2, 2, 2⟩

/-- C3 witness: the amended theorem at three concrete cost vectors, with the
nonnegativity hypothesis discharged. -/
theorem costResult_add_monoid_witness :
    ((costA.add costB).add costC = costA.add (costB.add costC)) ∧
    (costA.add costB = costB.add costA) ∧
    (costZero.add costA = costA ∧ costA.add costZero = costA) := by
  have h := costResult_add_monoid costA costB costC
  exact ⟨h.1, h.2.1, h.2.2 (by norm_num [costA])⟩

-- ============================================================
-- C8: calculate_costs failure behaviour and total_time formula
-- ============================================================

/-- C8 counterexample: `calculate_costs` performs no `InvalidTopology`
validation: at `nodes_involved = -1 ≤ 0` it does not fail; it returns a cost
vector (with a negative total time). -/
theorem calculate_costs_negative_nodes_no_failure :
    ((-1 : ℚ) ≤ 0) ∧ calculate_costs 100 100 (-1) ≠ none ∧
      (calculate_costs 100 100 (-1)).map CostResult.nodes_involved = some (-1) := by
  refine ⟨by norm_num, ?_, ?_⟩ <;> rw [calculate_costs, if_neg (by norm_num : (-1 : ℚ) ≠ 0)]
  · exact Option.some_ne_none _
  · rfl

/-- C8 (amended): `calculate_costs` fails (Python `ZeroDivisionError`; there
is no `InvalidTopology` check) exactly when `nodes_involved = 0`; for every
nonzero `nodes_involved` — including negative values — it returns a cost
vector with `total_time = (bytes_read / io_throughput +
bytes_transferred / network_throughput) / nodes_involved`. -/
theorem calculate_costs_spec (dr dt n : ℚ) :
    (calculate_costs dr dt n = none ↔ n = 0) ∧
    (n ≠ 0 → (calculate_costs dr dt n).map CostResult.time_s =
        some ((dr / IO_SPEED_BYTES_S + dt / NETWORK_SPEED_BYTES_S) / n)) := by
  constructor
  · constructor
    · intro h
      by_contra hn
      rw [calculate_costs, if_neg hn] at h
      exact Option.some_ne_none _ h
    · intro h; rw [calculate_costs, if_pos h]
  · intro hn
    rw [calculate_costs, if_neg hn]
    rfl

/-- C8 witness: at 200 MiB read, 0 transferred, 2 nodes the total time is
1 second. -/
theorem calculate_costs_spec_witness :
    (calculate_costs (200 * 1024 * 1024) 0 2).map CostResult.time_s = some 1 := by
  have h := (calculate_costs_spec (200 * 1024 * 1024) 0 2).2 (by norm_num)
  rw [h]
  norm_num [IO_SPEED_BYTES_S, NETWORK_SPEED_BYTES_S]

-- ============================================================
-- Concrete catalog used by witnesses and counterexamples
-- ============================================================

def noStats : String → Option ℚ := fun _ => none

/-- A flat schema whose document size is 20 bytes (one "number" field:
KEY_OVERHEAD 12 + 8). -/
def productSchemaW : SchemaNode :=
  .node (some "object") (.cons "IDP" (.node (some "number") .nil none) .nil) none

/-- A schema whose document size is 112 bytes (12+8 for the number field,
12+80 for the string field). -/
def stockSchemaW : SchemaNode :=
  .node (some "object")
    (.cons "IDW" (.node (some "number") .nil none)
      (.cons "label" (.node (some "string") .nil none) .nil)) none

def dbW : Database :=
  { name := "DB1"
  , collections := fun n =>
      if n = "Product" then some (Collection.make "Product" productSchemaW 100000 noStats)
      else if n = "Stock" then some (Collection.make "Stock" stockSchemaW 21000 noStats)
      else none
  , nb_servers := 1000 }

-- ============================================================
-- Shape lemma for simulate_filter
-- ============================================================

lemma simulate_filter_eq (db : Database) (cn fk : String) (sel : ℚ)
    (sk : Option String) (hi : Bool) (inp : Option OpResult)
    (cnt : ℤ) (d t : ℚ)
    (hsrc : filterSourceStats db cn inp = some (cnt, d, t))
    (hnb : db.nb_servers ≠ 0) :
    ∃ cst, simulate_filter db cn fk sel sk hi inp = some
      { database := db.name
      , shardingKeys := pyOrNone sk
      , index := if hi then fk else "None"
      , algo := (if optStrTruthy sk then "Shard / " else "") ++
          (if hi then "Index" else "Full scan")
      , outputDocs := pyTrunc ((cnt : ℚ) * sel)
      , outputSize := ((cnt : ℚ) * sel) * d
      , costs := cst } ∧
      cst.nodes_involved =
        (if optStrTruthy sk ∧ sk = some fk then 1 else db.nb_servers) ∧
      cst.data_read_bytes =
        (if optStrTruthy sk ∧ sk = some fk
          then (t / db.nb_servers) * (if hi then 1 / 100 else 1)
          else t * (if hi then 1 / 100 else 1)) ∧
      cst.data_transfer_bytes =
        (if optStrTruthy sk ∧ sk = some fk then 0
          else if optStrTruthy sk then ((cnt : ℚ) * sel) * d else 0) := by
  unfold simulate_filter
  rw [hsrc]
  simp only [Option.some_bind]
  by_cases hcond : optStrTruthy sk ∧ sk = some fk
  · rw [if_pos hcond, if_neg hnb]
    obtain ⟨cst, hcc, h1, h2, h3, -⟩ :=
      calculate_costs_fields ((t / db.nb_servers) * (if hi then 1 / 100 else 1)) 0 1
        one_ne_zero
    rw [hcc, Option.map_some']
    exact ⟨cst, rfl, by rw [h1, if_pos hcond], by rw [h2, if_pos hcond],
      by rw [h3, if_pos hcond]⟩
  · rw [if_neg hcond]
    obtain ⟨cst, hcc, h1, h2, h3, -⟩ :=
      calculate_costs_fields (t * (if hi then 1 / 100 else 1))
        (if optStrTruthy sk then ((cnt : ℚ) * sel) * d else 0) db.nb_servers hnb
    rw [hcc, Option.map_some']
    exact ⟨cst, rfl, by rw [h1, if_neg hcond], by rw [h2, if_neg hcond],
      by rw [h3, if_neg hcond]⟩

-- ============================================================
-- C1: colocated filter
-- ============================================================

/-- C1: for every filter invocation with a (nonempty) sharding key equal to
the filter key, over a database with a nonzero server count, the result has
`nodes_involved = 1` (whatever the server count), `bytes_read =
(source_total_bytes / total_nodes) * (0.01 if has_index else 1.0)` and
`bytes_transferred = 0`. -/
theorem simulate_filter_colocated (db : Database) (cn sk : String) (sel : ℚ)
    (hi : Bool) (inp : Option OpResult) (cnt : ℤ) (d t : ℚ)
    (hsk : sk ≠ "") (hnb : db.nb_servers ≠ 0)
    (hsrc : filterSourceStats db cn inp = some (cnt, d, t)) :
    ∃ r, simulate_filter db cn sk sel (some sk) hi inp = some r ∧
      r.costs.nodes_involved = 1 ∧
      r.costs.data_read_bytes = (t / db.nb_servers) * (if hi then 1 / 100 else 1) ∧
      r.costs.data_transfer_bytes = 0 := by
  obtain ⟨cst, heq, h1, h2, h3⟩ :=
    simulate_filter_eq db cn sk sel (some sk) hi inp cnt d t hsrc hnb
  have hcond : (optStrTruthy (some sk) : Prop) ∧ (some sk : Option String) = some sk :=
    ⟨by simp [optStrTruthy, hsk], rfl⟩
  exact ⟨_, heq, by rw [h1, if_pos hcond], by rw [h2, if_pos hcond],
    by rw [h3, if_pos hcond]⟩

lemma productSchemaW_size : compute_doc_size noStats productSchemaW = 20 := by
  simp [compute_doc_size, fieldsSize, itemUnitSize, productSchemaW, schemaType,
    TYPE_SIZES, KEY_OVERHEAD]
  norm_num

lemma stockSchemaW_size : compute_doc_size noStats stockSchemaW = 112 := by
  simp [compute_doc_size, fieldsSize, itemUnitSize, stockSchemaW, schemaType,
    TYPE_SIZES, KEY_OVERHEAD]
  norm_num

lemma filterSourceStats_dbW_Product :
    filterSourceStats dbW "Product" none = some (100000, 20, 2000000) := by
  simp [filterSourceStats, dbW, Collection.make, Collection.total_size_bytes,
    productSchemaW_size]
  norm_num

/-- C1 witness: 100,000 documents of 20 bytes over 1000 nodes, filtered on
the shard key with an index: `nodes_involved = 1`, `bytes_read = 20.0`,
`bytes_transferred = 0`. -/
theorem simulate_filter_colocated_witness :
    (simulate_filter dbW "Product" "IDP" (1 / 10000) (some "IDP") true none).map
        (fun r => (r.costs.nodes_involved, r.costs.data_read_bytes,
                   r.costs.data_transfer_bytes))
      = some (1, 20, 0) := by
  obtain ⟨r, h1, h2, h3, h4⟩ :=
    simulate_filter_colocated dbW "Product" "IDP" (1 / 10000) true none 100000 20 2000000
      (by decide) (by norm_num [dbW]) filterSourceStats_dbW_Product
  rw [h1, Option.map_some', h2, h3, h4]
  norm_num [dbW]

-- ============================================================
-- C7: filter output row count and size
-- ============================================================

/-- C7 counterexample: filtering 100,000 rows at selectivity 1/3 returns
`OutputDocs = int(100000/3) = 33333`, not `source_count × selectivity`
(the untruncated 100000/3); the returned output size does use the
untruncated value. -/
theorem simulate_filter_rowcount_counterexample :
    (simulate_filter dbW "Product" "brand" (1 / 3) none false none).map
        (fun r => ((r.outputDocs : ℚ), r.outputSize))
      = some (33333, (100000 : ℚ) * (1 / 3) * 20) ∧
    (33333 : ℚ) ≠ (100000 : ℚ) * (1 / 3) := by
  obtain ⟨cst, heq, -, -, -⟩ :=
    simulate_filter_eq dbW "Product" "brand" (1 / 3) none false none 100000 20 2000000
      filterSourceStats_dbW_Product (by norm_num [dbW])
  constructor
  · rw [heq]
    simp only [Option.map_some', Option.some.injEq, Prod.mk.injEq]
    have hq : pyTrunc (((100000 : ℤ) : ℚ) * (1 / 3)) = 33333 := by
      rw [pyTrunc, if_pos (by norm_num)]
      rw [Int.floor_eq_iff]
      norm_num
    rw [hq]
    norm_num
  · norm_num

lemma filterSourceStats_consistent (db : Database) (cn : String)
    (inp : Option OpResult) (cnt : ℤ) (d t : ℚ)
    (h : filterSourceStats db cn inp = some (cnt, d, t)) (hc : 0 < cnt) :
    d = t / (cnt : ℚ) := by
  cases inp with
  | some r =>
      simp only [filterSourceStats, Option.some.injEq, Prod.mk.injEq] at h
      obtain ⟨h1, h2, h3⟩ := h
      subst h1; subst h3
      rw [← h2, if_pos hc]
  | none =>
      cases hcoll : db.collections cn with
      | none => simp [filterSourceStats, hcoll] at h
      | some c =>
          simp only [filterSourceStats, hcoll, Option.map_some', Option.some.injEq,
            Prod.mk.injEq] at h
          obtain ⟨h1, h2, h3⟩ := h
          subst h1; subst h2; subst h3
          rw [Collection.total_size_bytes,
            mul_div_cancel_left₀ _ (Int.cast_ne_zero.mpr hc.ne')]

/-- C7 (amended): for every filter invocation over a source with a
nonnegative row count, the returned row count equals the *integer truncation*
`int(source_count × selectivity)` (the Python code applies `int()` to the
product), while the returned output size equals the untruncated
`(source_count × selectivity) × (source_size / source_count)`. -/
theorem simulate_filter_output (db : Database) (cn fk : String) (sel : ℚ)
    (sk : Option String) (hi : Bool) (inp : Option OpResult) (cnt : ℤ) (d t : ℚ)
    (hsrc : filterSourceStats db cn inp = some (cnt, d, t))
    (hc : 0 ≤ cnt) (hnb : db.nb_servers ≠ 0) :
    ∃ r, simulate_filter db cn fk sel sk hi inp = some r ∧
      r.outputDocs = pyTrunc ((cnt : ℚ) * sel) ∧
      r.outputSize = ((cnt : ℚ) * sel) * (t / (cnt : ℚ)) := by
  obtain ⟨cst, heq, -, -, -⟩ := simulate_filter_eq db cn fk sel sk hi inp cnt d t hsrc hnb
  refine ⟨_, heq, rfl, ?_⟩
  rcases hc.lt_or_eq with hlt | heq0
  · rw [filterSourceStats_consistent db cn inp cnt d t hsrc hlt]
  · rw [← heq0]
    norm_num

/-- C7 witness: filtering 100,000 rows of 20 bytes at selectivity 1/50
returns 2000 rows of total size 40,000 bytes. -/
theorem simulate_filter_output_witness :
    (simulate_filter dbW "Product" "brand" (1 / 50) none false none).map
        (fun r => (r.outputDocs, r.outputSize)) = some (2000, 40000) := by
  obtain ⟨r, h1, h2, h3⟩ :=
    simulate_filter_output dbW "Product" "brand" (1 / 50) none false none 100000 20 2000000
      filterSourceStats_dbW_Product (by norm_num) (by norm_num [dbW])
  rw [h1, Option.map_some', h2, h3]
  have hq : pyTrunc (((100000 : ℤ) : ℚ) * (1 / 50)) = 2000 := by
    rw [pyTrunc, if_pos (by norm_num)]
    rw [Int.floor_eq_iff]
    norm_num
  rw [hq]
  norm_num

-- ============================================================
-- Shape lemma for simulate_join
-- ============================================================

lemma simulate_join_eq (db : Database) (co ci jk : String) (shi : Option ShardingInfo)
    (oi ii : Option OpResult) (oc : ℤ) (osz odz : ℚ) (ic : ℤ) (isz idz : ℚ)
    (ho : joinSourceStats db co oi = some (oc, osz, odz))
    (hi : joinSourceStats db ci ii = some (ic, isz, idz))
    (hnb : db.nb_servers ≠ 0) :
    ∃ r, simulate_join db co ci jk shi oi ii = some r ∧
      r.outputDocs = oc ∧
      r.outputSize = (oc : ℚ) * (odz + idz) ∧
      (shi = none → r.algo = "Nested Loop" ∧ r.costs.nodes_involved = 1 ∧
         r.costs.data_read_bytes = osz + isz ∧ r.costs.data_transfer_bytes = 0) ∧
      (∀ si, shi = some si →
        r.costs.nodes_involved = db.nb_servers ∧
        r.costs.data_read_bytes = osz + isz ∧
        (si.outer = some jk ∧ si.inner = some jk →
           r.costs.data_transfer_bytes = 0 ∧ r.algo = "Shard / Nested Loop") ∧
        (¬(si.outer = some jk ∧ si.inner = some jk) →
           r.costs.data_transfer_bytes = min osz isz ∧
           r.algo = "Map/Reduce & Nested Loop")) := by
  unfold simulate_join
  rw [ho]
  simp only [Option.some_bind]
  rw [hi]
  simp only [Option.some_bind]
  cases shi with
  | none =>
      obtain ⟨cst, hcc, h1, h2, h3, -⟩ := calculate_costs_fields (osz + isz) 0 1 one_ne_zero
      dsimp only
      rw [hcc, Option.map_some']
      refine ⟨_, rfl, rfl, rfl, ?_, ?_⟩
      · intro _
        exact ⟨rfl, h1, h2, h3⟩
      · intro si hsi
        exact Option.noConfusion hsi
  | some si =>
      by_cases hcond : si.outer = some jk ∧ si.inner = some jk
      · obtain ⟨cst, hcc, h1, h2, h3, -⟩ :=
          calculate_costs_fields (osz + isz) 0 db.nb_servers hnb
        dsimp only
        rw [if_pos hcond]
        rw [hcc, Option.map_some']
        refine ⟨_, rfl, rfl, rfl, ?_, ?_⟩
        · intro h
          exact Option.noConfusion h
        · intro si2 hsi
          obtain rfl : si = si2 := Option.some.inj hsi
          exact ⟨h1, h2, fun _ => ⟨h3, rfl⟩, fun hnc => absurd hcond hnc⟩
      · obtain ⟨cst, hcc, h1, h2, h3, -⟩ :=
          calculate_costs_fields (osz + isz) (min osz isz) db.nb_servers hnb
        dsimp only
        rw [if_neg hcond]
        rw [hcc, Option.map_some']
        refine ⟨_, rfl, rfl, rfl, ?_, ?_⟩
        · intro h
          exact Option.noConfusion h
        · intro si2 hsi
          obtain rfl : si = si2 := Option.some.inj hsi
          exact ⟨h1, h2, fun hc => absurd hc hcond, fun _ => ⟨h3, rfl⟩⟩

-- ============================================================
-- C2: sharded join collocation
-- ============================================================

/-- C2: for every join invocation with sharding info supplied: if both the
outer and the inner sharding key equal the join key, then
`bytes_transferred = 0`, `nodes_involved = total_nodes`,
`bytes_read = outer_bytes + inner_bytes` and the strategy is
"Shard / Nested Loop"; otherwise `bytes_transferred =
min(outer_bytes, inner_bytes)`. -/
theorem simulate_join_sharded (db : Database) (co ci jk : String) (si : ShardingInfo)
    (oi ii : Option OpResult) (oc : ℤ) (osz odz : ℚ) (ic : ℤ) (isz idz : ℚ)
    (ho : joinSourceStats db co oi = some (oc, osz, odz))
    (hi : joinSourceStats db ci ii = some (ic, isz, idz))
    (hnb : db.nb_servers ≠ 0) :
    (si.outer = some jk ∧ si.inner = some jk →
      ∃ r, simulate_join db co ci jk (some si) oi ii = some r ∧
        r.costs.data_transfer_bytes = 0 ∧
        r.costs.nodes_involved = db.nb_servers ∧
        r.costs.data_read_bytes = osz + isz ∧
        r.algo = "Shard / Nested Loop") ∧
    (¬(si.outer = some jk ∧ si.inner = some jk) →
      ∃ r, simulate_join db co ci jk (some si) oi ii = some r ∧
        r.costs.data_transfer_bytes = min osz isz) := by
  obtain ⟨r, heq, -, -, -, hsome⟩ :=
    simulate_join_eq db co ci jk (some si) oi ii oc osz odz ic isz idz ho hi hnb
  obtain ⟨h1, h2, h3, h4⟩ := hsome si rfl
  exact ⟨fun hc => ⟨r, heq, (h3 hc).1, h1, h2, (h3 hc).2⟩,
         fun hc => ⟨r, heq, (h4 hc).1⟩⟩

lemma joinSourceStats_dbW_Product :
    joinSourceStats dbW "Product" none = some (100000, 2000000, 20) := by
  simp [joinSourceStats, dbW, Collection.make, Collection.total_size_bytes,
    productSchemaW_size]
  norm_num

lemma joinSourceStats_dbW_Stock :
    joinSourceStats dbW "Stock" none = some (21000, 2352000, 112) := by
  simp [joinSourceStats, dbW, Collection.make, Collection.total_size_bytes,
    stockSchemaW_size]
  norm_num

/-- C2 witness: Product (2,000,000 B) joined with Stock (2,352,000 B) on IDP
over 1000 nodes: collocated sharding gives transfer 0, read 4,352,000;
non-collocated sharding gives transfer min = 2,000,000. -/
theorem simulate_join_sharded_witness :
    ((simulate_join dbW "Product" "Stock" "IDP"
        (some ⟨some "IDP", some "IDP"⟩) none none).map
        (fun r => (r.costs.data_transfer_bytes, r.costs.nodes_involved,
                   r.costs.data_read_bytes, r.algo))
      = some (0, 1000, 4352000, "Shard / Nested Loop")) ∧
    ((simulate_join dbW "Product" "Stock" "IDP"
        (some ⟨some "IDP", some "IDW"⟩) none none).map
        (fun r => r.costs.data_transfer_bytes) = some 2000000) := by
  constructor
  · obtain ⟨hcolo, -⟩ :=
      simulate_join_sharded dbW "Product" "Stock" "IDP" ⟨some "IDP", some "IDP"⟩
        none none 100000 2000000 20 21000 2352000 112
        joinSourceStats_dbW_Product joinSourceStats_dbW_Stock (by norm_num [dbW])
    obtain ⟨r, heq, h1, h2, h3, h4⟩ := hcolo ⟨rfl, rfl⟩
    rw [heq, Option.map_some', h1, h2, h3, h4]
    norm_num [dbW]
  · obtain ⟨-, hnc⟩ :=
      simulate_join_sharded dbW "Product" "Stock" "IDP" ⟨some "IDP", some "IDW"⟩
        none none 100000 2000000 20 21000 2352000 112
        joinSourceStats_dbW_Product joinSourceStats_dbW_Stock (by norm_num [dbW])
    obtain ⟨r, heq, h1⟩ := hnc (by simp)
    rw [heq, Option.map_some', h1]
    norm_num [min_def]

-- ============================================================
-- C4: join output row count and size
-- ============================================================

/-- C4: for every join invocation, the returned row count equals the outer
source's row count and `output_size = output_row_count ×
(outer_doc_size + inner_doc_size)`; with no sharding info the strategy is
"Nested Loop" on a single node. -/
theorem simulate_join_output (db : Database) (co ci jk : String)
    (shi : Option ShardingInfo) (oi ii : Option OpResult)
    (oc : ℤ) (osz odz : ℚ) (ic : ℤ) (isz idz : ℚ)
    (ho : joinSourceStats db co oi = some (oc, osz, odz))
    (hi : joinSourceStats db ci ii = some (ic, isz, idz))
    (hnb : db.nb_servers ≠ 0) :
    ∃ r, simulate_join db co ci jk shi oi ii = some r ∧
      r.outputDocs = oc ∧
      r.outputSize = (oc : ℚ) * (odz + idz) ∧
      (shi = none → r.algo = "Nested Loop" ∧ r.costs.nodes_involved = 1) := by
  obtain ⟨r, heq, ho1, ho2, hnone, -⟩ :=
    simulate_join_eq db co ci jk shi oi ii oc osz odz ic isz idz ho hi hnb
  exact ⟨r, heq, ho1, ho2, fun h => ⟨(hnone h).1, (hnone h).2.1⟩⟩

/-- The OperatorOutput of a prior stage used as the inner side of a join:
4,000,000,000 rows totalling 32,000,000,000 bytes (doc size 8). -/
def innerInputW : OpResult :=
  { database := "DB1", shardingKeys := "None", index := "None", algo := "Full scan"
  , outputDocs := 4000000000, outputSize := 32000000000, costs := costZero }

lemma joinSourceStats_innerInputW :
    joinSourceStats dbW "OrderLine" (some innerInputW) =
      some (4000000000, 32000000000, 8) := by
  simp [joinSourceStats, innerInputW]
  norm_num

/-- C4 witness: a 100,000-row outer of doc size 20 joined with a
4,000,000,000-row inner of doc size 8 and no sharding info gives
100,000 output rows, output size 2,800,000, strategy "Nested Loop",
1 node involved. -/
theorem simulate_join_output_witness :
    (simulate_join dbW "Product" "OrderLine" "IDP" none none (some innerInputW)).map
        (fun r => (r.outputDocs, r.outputSize, r.algo, r.costs.nodes_involved))
      = some (100000, 2800000, "Nested Loop", 1) := by
  obtain ⟨r, heq, h1, h2, h3⟩ :=
    simulate_join_output dbW "Product" "OrderLine" "IDP" none none (some innerInputW)
      100000 2000000 20 4000000000 32000000000 8
      joinSourceStats_dbW_Product joinSourceStats_innerInputW (by norm_num [dbW])
  obtain ⟨ha, hn⟩ := h3 rfl
  rw [heq, Option.map_some', h1, h2, ha, hn]
  norm_num

-- ============================================================
-- Shape lemma for simulate_aggregate
-- ============================================================

lemma simulate_aggregate_eq (db : Database) (cn gk : String) (sk : Option String)
    (inp : Option OpResult) (dv : Option ℚ) (cnt : ℤ) (t : ℚ)
    (hsrc : aggSourceStats db cn inp = some (cnt, t))
    (hnb : db.nb_servers ≠ 0) :
    ∃ r, simulate_aggregate db cn gk sk inp dv = some r ∧
      r.outputDocs = pyTrunc (aggOutputCount dv cnt) ∧
      r.outputSize = aggOutputCount dv cnt * 100 ∧
      ((sk = none ∨ sk = some "") → r.algo = "Local Aggregate" ∧
         r.costs.nodes_involved = 1 ∧ r.costs.data_read_bytes = t ∧
         r.costs.data_transfer_bytes = 0) ∧
      (∀ s, sk = some s → s ≠ "" → gk = s →
         r.algo = "Shard / Local Aggregate" ∧
         r.costs.nodes_involved = db.nb_servers ∧
         r.costs.data_read_bytes = t ∧ r.costs.data_transfer_bytes = 0) ∧
      (∀ s, sk = some s → s ≠ "" → gk ≠ s →
         r.algo = "Map/Reduce Aggregate (Shuffle)" ∧
         r.costs.nodes_involved = db.nb_servers ∧
         r.costs.data_read_bytes = t ∧
         r.costs.data_transfer_bytes = t * (1 / 2)) := by
  unfold simulate_aggregate
  rw [hsrc]
  simp only [Option.some_bind]
  cases sk with
  | none =>
      obtain ⟨cst, hcc, h1, h2, h3, -⟩ := calculate_costs_fields t 0 1 one_ne_zero
      dsimp only
      rw [hcc, Option.map_some']
      refine ⟨_, rfl, rfl, rfl, ?_, ?_, ?_⟩
      · intro _
        exact ⟨rfl, h1, h2, h3⟩
      · intro s hs
        exact Option.noConfusion hs
      · intro s hs
        exact Option.noConfusion hs
  | some s =>
      by_cases hse : s = ""
      · subst hse
        obtain ⟨cst, hcc, h1, h2, h3, -⟩ := calculate_costs_fields t 0 1 one_ne_zero
        dsimp only
        rw [if_neg (by simp)]
        dsimp only
        rw [hcc, Option.map_some']
        refine ⟨_, rfl, rfl, rfl, ?_, ?_, ?_⟩
        · intro _
          exact ⟨rfl, h1, h2, h3⟩
        · intro s2 hs2 hne hgk
          exact absurd (Option.some.inj hs2).symm hne
        · intro s2 hs2 hne hgk
          exact absurd (Option.some.inj hs2).symm hne
      · by_cases hgk : gk = s
        · obtain ⟨cst, hcc, h1, h2, h3, -⟩ :=
            calculate_costs_fields t 0 db.nb_servers hnb
          dsimp only
          rw [if_pos hse, if_pos hgk]
          dsimp only
          rw [hcc, Option.map_some']
          refine ⟨_, rfl, rfl, rfl, ?_, ?_, ?_⟩
          · intro h
            rcases h with h | h
            · exact Option.noConfusion h
            · exact absurd (Option.some.inj h) hse
          · intro s2 hs2 hne hg
            obtain rfl : s = s2 := Option.some.inj hs2
            exact ⟨rfl, h1, h2, h3⟩
          · intro s2 hs2 hne hg
            obtain rfl : s = s2 := Option.some.inj hs2
            exact absurd hgk hg
        · obtain ⟨cst, hcc, h1, h2, h3, -⟩ :=
            calculate_costs_fields t (t * (1 / 2)) db.nb_servers hnb
          dsimp only
          rw [if_pos hse, if_neg hgk]
          dsimp only
          rw [hcc, Option.map_some']
          refine ⟨_, rfl, rfl, rfl, ?_, ?_, ?_⟩
          · intro h
            rcases h with h | h
            · exact Option.noConfusion h
            · exact absurd (Option.some.inj h) hse
          · intro s2 hs2 hne hg
            obtain rfl : s = s2 := Option.some.inj hs2
            exact absurd hg hgk
          · intro s2 hs2 hne hg
            obtain rfl : s = s2 := Option.some.inj hs2
            exact ⟨rfl, h1, h2, h3⟩

-- ============================================================
-- C5: aggregate strategy selection
-- ============================================================

/-- C5: for every aggregate invocation: no sharding key gives 1 node,
`bytes_read = source_bytes`, no transfer, strategy "Local Aggregate";
a sharding key equal to the group key gives `total_nodes` nodes, no
transfer, strategy "Shard / Local Aggregate"; a sharding key different from
the group key gives `total_nodes` nodes, transfer `source_bytes × 0.5`,
strategy "Map/Reduce Aggregate (Shuffle)"; `bytes_read = source_bytes` in
every case. -/
theorem simulate_aggregate_strategies (db : Database) (cn gk : String)
    (inp : Option OpResult) (dv : Option ℚ) (cnt : ℤ) (t : ℚ)
    (hsrc : aggSourceStats db cn inp = some (cnt, t)) (hnb : db.nb_servers ≠ 0) :
    (∃ r, simulate_aggregate db cn gk none inp dv = some r ∧
       r.costs.nodes_involved = 1 ∧ r.costs.data_read_bytes = t ∧
       r.costs.data_transfer_bytes = 0 ∧ r.algo = "Local Aggregate") ∧
    (∀ sk : String, sk ≠ "" → gk = sk →
       ∃ r, simulate_aggregate db cn gk (some sk) inp dv = some r ∧
         r.costs.nodes_involved = db.nb_servers ∧ r.costs.data_read_bytes = t ∧
         r.costs.data_transfer_bytes = 0 ∧ r.algo = "Shard / Local Aggregate") ∧
    (∀ sk : String, sk ≠ "" → gk ≠ sk →
       ∃ r, simulate_aggregate db cn gk (some sk) inp dv = some r ∧
         r.costs.nodes_involved = db.nb_servers ∧ r.costs.data_read_bytes = t ∧
         r.costs.data_transfer_bytes = t * (1 / 2) ∧
         r.algo = "Map/Reduce Aggregate (Shuffle)") := by
  refine ⟨?_, ?_, ?_⟩
  · obtain ⟨r, heq, -, -, hloc, -, -⟩ :=
      simulate_aggregate_eq db cn gk none inp dv cnt t hsrc hnb
    obtain ⟨ha, h1, h2, h3⟩ := hloc (Or.inl rfl)
    exact ⟨r, heq, h1, h2, h3, ha⟩
  · intro sk hne hgk
    obtain ⟨r, heq, -, -, -, hcol, -⟩ :=
      simulate_aggregate_eq db cn gk (some sk) inp dv cnt t hsrc hnb
    obtain ⟨ha, h1, h2, h3⟩ := hcol sk rfl hne hgk
    exact ⟨r, heq, h1, h2, h3, ha⟩
  · intro sk hne hgk
    obtain ⟨r, heq, -, -, -, -, hsh⟩ :=
      simulate_aggregate_eq db cn gk (some sk) inp dv cnt t hsrc hnb
    obtain ⟨ha, h1, h2, h3⟩ := hsh sk rfl hne hgk
    exact ⟨r, heq, h1, h2, h3, ha⟩

lemma aggSourceStats_dbW_Product :
    aggSourceStats dbW "Product" none = some (100000, 2000000) := by
  simp [aggSourceStats, dbW, Collection.make, Collection.total_size_bytes,
    productSchemaW_size]
  norm_num

/-- C5 witness: aggregating the 2,000,000-byte Product collection: no
sharding key, a sharding key equal to the group key, and a different
sharding key, with the three documented strategies and costs. -/
theorem simulate_aggregate_strategies_witness :
    ((simulate_aggregate dbW "Product" "brand" none none none).map
        (fun r => (r.costs.nodes_involved, r.costs.data_read_bytes,
                   r.costs.data_transfer_bytes, r.algo))
      = some (1, 2000000, 0, "Local Aggregate")) ∧
    ((simulate_aggregate dbW "Product" "IDP" (some "IDP") none none).map
        (fun r => (r.costs.nodes_involved, r.costs.data_read_bytes,
                   r.costs.data_transfer_bytes, r.algo))
      = some (1000, 2000000, 0, "Shard / Local Aggregate")) ∧
    ((simulate_aggregate dbW "Product" "IDP" (some "IDC") none none).map
        (fun r => (r.costs.nodes_involved, r.costs.data_read_bytes,
                   r.costs.data_transfer_bytes, r.algo))
      = some (1000, 2000000, 1000000, "Map/Reduce Aggregate (Shuffle)")) := by
  have hbrand := simulate_aggregate_strategies dbW "Product" "brand" none none
    100000 2000000 aggSourceStats_dbW_Product (by norm_num [dbW])
  have hidp := simulate_aggregate_strategies dbW "Product" "IDP" none none
    100000 2000000 aggSourceStats_dbW_Product (by norm_num [dbW])
  refine ⟨?_, ?_, ?_⟩
  · obtain ⟨r, heq, ha, hb, hc, hd⟩ := hbrand.1
    rw [heq, Option.map_some', ha, hb, hc, hd]
  · obtain ⟨r, heq, ha, hb, hc, hd⟩ := hidp.2.1 "IDP" (by decide) rfl
    rw [heq, Option.map_some', ha, hb, hc, hd]
    norm_num [dbW]
  · obtain ⟨r, heq, ha, hb, hc, hd⟩ := hidp.2.2 "IDC" (by decide) (by decide)
    rw [heq, Option.map_some', ha, hb, hc, hd]
    norm_num [dbW]

-- ============================================================
-- C6: aggregate output row count and size
-- ============================================================

/-- A prior-stage OperatorOutput of 15 rows totalling 1000 bytes, fed to the
aggregate as its input. -/
def aggInputCE : OpResult :=
  { database := "DB1", shardingKeys := "None", index := "None", algo := "Full scan"
  , outputDocs := 15, outputSize := 1000, costs := costZero }

/-- C6 counterexample: aggregating a 15-row input with a *supplied*
`distinct_values = 0` does not return 0 rows of size 0: Python
`distinct_values if distinct_values else count * 0.1` treats 0 as falsy and
falls back to 10% of the input, and the returned row count is additionally
`int(1.5) = 1` while the size uses the untruncated 1.5 (1.5 × 100 = 150). -/
theorem simulate_aggregate_zero_distinct_counterexample :
    (simulate_aggregate dbW "Product" "g" none (some aggInputCE) (some 0)).map
        (fun r => (r.outputDocs, r.outputSize)) = some (1, 150) ∧
    (1 : ℤ) ≠ 0 ∧ (150 : ℚ) ≠ 0 * 100 := by
  obtain ⟨r, heq, hdocs, hsize, -, -, -⟩ :=
    simulate_aggregate_eq dbW "Product" "g" none (some aggInputCE) (some 0) 15 1000
      (by simp [aggSourceStats, aggInputCE]) (by norm_num [dbW])
  refine ⟨?_, by norm_num, by norm_num⟩
  rw [heq, Option.map_some', hdocs, hsize]
  have hoc : aggOutputCount (some 0) 15 = 3 / 2 := by
    norm_num [aggOutputCount]
  rw [hoc]
  have hq : pyTrunc (3 / 2 : ℚ) = 1 := by
    rw [pyTrunc, if_pos (by norm_num), Int.floor_eq_iff]
    norm_num
  rw [hq]
  norm_num

/-- C6 (amended): for every aggregate invocation the returned row count is
`int(output_count)` where `output_count` is the supplied distinct-group
count when that count is supplied *and nonzero* (Python truthiness), and
otherwise (absent or zero) 10% of the input row count; the returned
output size is the *untruncated* `output_count × 100`. -/
theorem simulate_aggregate_output (db : Database) (cn gk : String)
    (sk : Option String) (inp : Option OpResult) (dv : Option ℚ) (cnt : ℤ) (t : ℚ)
    (hsrc : aggSourceStats db cn inp = some (cnt, t)) (hnb : db.nb_servers ≠ 0) :
    ∃ r, simulate_aggregate db cn gk sk inp dv = some r ∧
      (∀ d, dv = some d → d ≠ 0 →
        r.outputDocs = pyTrunc d ∧ r.outputSize = d * 100) ∧
      ((dv = none ∨ dv = some 0) →
        r.outputDocs = pyTrunc ((cnt : ℚ) * (1 / 10)) ∧
        r.outputSize = ((cnt : ℚ) * (1 / 10)) * 100) := by
  obtain ⟨r, heq, hdocs, hsize, -, -, -⟩ :=
    simulate_aggregate_eq db cn gk sk inp dv cnt t hsrc hnb
  refine ⟨r, heq, ?_, ?_⟩
  · intro d hd hdne
    subst hd
    rw [hdocs, hsize]
    have hoc : aggOutputCount (some d) cnt = d := by
      simp [aggOutputCount, hdne]
    rw [hoc]
    exact ⟨rfl, rfl⟩
  · intro h
    have hoc : aggOutputCount dv cnt = (cnt : ℚ) * (1 / 10) := by
      rcases h with h | h <;> subst h <;> simp [aggOutputCount]
    rw [hdocs, hsize, hoc]
    exact ⟨rfl, rfl⟩

/-- C6 witness: a supplied nonzero distinct-group count of 400 gives 400
output rows of total size 400 × 100 = 40,000. -/
theorem simulate_aggregate_output_witness :
    (simulate_aggregate dbW "Product" "IDP" (some "IDC") none (some 400)).map
        (fun r => (r.outputDocs, r.outputSize)) = some (400, 40000) := by
  obtain ⟨r, heq, hsup, -⟩ :=
    simulate_aggregate_output dbW "Product" "IDP" (some "IDC") none (some 400)
      100000 2000000 aggSourceStats_dbW_Product (by norm_num [dbW])
  obtain ⟨h1, h2⟩ := hsup 400 rfl (by norm_num)
  rw [heq, Option.map_some', h1, h2]
  have hq : pyTrunc (400 : ℚ) = 400 := by
    rw [pyTrunc, if_pos (by norm_num), Int.floor_eq_iff]
    norm_num
  rw [hq]
  norm_num

-- ============================================================
-- C9 / C10: the document-size model
-- ============================================================

lemma TYPE_SIZES_array : TYPE_SIZES "array" = none := by decide

lemma TYPE_SIZES_object : TYPE_SIZES "object" = none := by decide

/-- An object schema with one declared scalar field of the unknown primitive
type "boolean". -/
def boolFieldSchema : SchemaNode :=
  .node (some "object") (.cons "flag" (.node (some "boolean") .nil none) .nil) none

/-- An object schema with one array field whose items have the unknown
primitive type "boolean". -/
def boolArraySchema : SchemaNode :=
  .node (some "object")
    (.cons "flags" (.node (some "array") .nil
      (some (.node (some "boolean") .nil none))) .nil) none

/-- C9 counterexample: `document_size` neither fails on the unknown type
"boolean" nor applies one single default: the declared scalar field silently
contributes 0 bytes, while the same type as an array item is charged the
12 + 80 = 92-byte default (total 12 + 1 × 92 = 104) — two silently
divergent policies. -/
theorem compute_doc_size_unknown_type_counterexample :
    compute_doc_size noStats boolFieldSchema = 0 ∧
    compute_doc_size noStats boolArraySchema = 104 ∧
    (0 : ℚ) ≠ 104 := by
  refine ⟨?_, ?_, by norm_num⟩
  · simp [compute_doc_size, fieldsSize, boolFieldSchema, schemaType, TYPE_SIZES]
  · simp [compute_doc_size, fieldsSize, itemUnitSize, boolArraySchema, schemaType,
      TYPE_SIZES, noStats, KEY_OVERHEAD]
    norm_num

/-- C9 (amended): `document_size` never fails on a primitive type missing
from the type table; instead, a declared scalar field of unknown type
(neither in the table nor "object"/"array") silently contributes 0 bytes,
while an array item of unknown type is charged a default of key_overhead +
80 bytes — two different silent defaults at the two occurrences. -/
theorem compute_doc_size_unknown_policy (stats : String → Option ℚ)
    (f g ty : String) (hty : TYPE_SIZES ty = none) (hno : ty ≠ "object")
    (hna : ty ≠ "array") :
    compute_doc_size stats
      (.node (some "object") (.cons f (.node (some ty) .nil none) .nil) none) = 0 ∧
    compute_doc_size stats
      (.node (some "object")
        (.cons g (.node (some "array") .nil (some (.node (some ty) .nil none))) .nil) none)
      = KEY_OVERHEAD + ((stats g).getD 1) * (KEY_OVERHEAD + 80) := by
  constructor
  · simp [compute_doc_size, fieldsSize, schemaType, hty, hno, hna]
  · simp [compute_doc_size, fieldsSize, itemUnitSize, schemaType, TYPE_SIZES_array,
      hty, hno, hna]

/-- C9 witness: the amended theorem at the concrete unknown type "boolean",
with every hypothesis discharged. -/
theorem compute_doc_size_unknown_policy_witness :
    compute_doc_size noStats boolFieldSchema = 0 ∧
    compute_doc_size noStats boolArraySchema =
      KEY_OVERHEAD + 1 * (KEY_OVERHEAD + 80) := by
  have h := compute_doc_size_unknown_policy noStats "flag" "flags" "boolean"
    (by decide) (by decide) (by decide)
  refine ⟨h.1, ?_⟩
  have h2 := h.2
  simpa [noStats, boolArraySchema] using h2

/-- C10: for every array field and cardinality (taken from the stats map,
default 1 when absent), its document_size contribution is `key_overhead +
cardinality × item_unit_size`, where `item_unit_size` is
`document_size(item_schema)` when the item is an object and
`key_overhead + type_size[item_type]` otherwise. -/
theorem compute_doc_size_array_field (stats : String → Option ℚ) (f : String)
    (item : SchemaNode) :
    (schemaType item = "object" →
      compute_doc_size stats
        (.node (some "object")
          (.cons f (.node (some "array") .nil (some item)) .nil) none)
        = KEY_OVERHEAD + ((stats f).getD 1) * compute_doc_size stats item) ∧
    (∀ sz, TYPE_SIZES (schemaType item) = some sz →
      compute_doc_size stats
        (.node (some "object")
          (.cons f (.node (some "array") .nil (some item)) .nil) none)
        = KEY_OVERHEAD + ((stats f).getD 1) * (KEY_OVERHEAD + sz)) := by
  obtain ⟨ity, iprops, iitems⟩ := item
  constructor
  · intro hobj
    simp only [schemaType] at hobj
    simp [compute_doc_size, fieldsSize, itemUnitSize, schemaType, TYPE_SIZES_array,
      hobj]
  · intro sz hsz
    have hne : schemaType (SchemaNode.node ity iprops iitems) ≠ "object" := by
      intro h
      rw [h, TYPE_SIZES_object] at hsz
      exact Option.noConfusion hsz
    simp only [schemaType] at hsz hne
    simp [compute_doc_size, fieldsSize, itemUnitSize, schemaType, TYPE_SIZES_array,
      hsz, hne]

def numberItemW : SchemaNode := .node (some "number") .nil none

def statsTagsW : String → Option ℚ := fun n => if n = "tags" then some 3 else none

/-- C10 witness: an array field "tags" of "number" items with cardinality 3
contributes 12 + 3 × (12 + 8) = 72 bytes. -/
theorem compute_doc_size_array_field_witness :
    compute_doc_size statsTagsW
      (.node (some "object")
        (.cons "tags" (.node (some "array") .nil (some numberItemW)) .nil) none)
      = 72 := by
  have h := (compute_doc_size_array_field statsTagsW "tags" numberItemW).2 8 (by decide)
  rw [h]
  norm_num [statsTagsW, KEY_OVERHEAD]
